import Mathlib

/-!
Shallow embedding of the currency exchange-rate resolution engine of the
`subtracker` repository, together with theorems settling the frozen claims
about it.

Source files embedded here:
- `src/models/currency/currency.model.ts` (data model, error codes)
- `src/services/error/error.service.ts` (`ErrorType`, `createError`)
- `src/services/currency/currency-provider.interface.ts` (config, defaults)
- `src/services/currency/base-currency-provider.ts` (`BaseCurrencyProvider`)
- `src/services/currency/exchange-rate-api-provider.ts` (`ExchangeRateApiProvider`)
- `src/services/currency/currency-provider-factory.ts` (`CurrencyProviderFactory`)
- `src/services/currency/currency.service.ts` (the facade)

Modelling conventions: machine floats (`number`) become `ℚ`; epoch-millisecond
clock readings become `ℚ`; a thrown JavaScript value becomes the `error` side
of `Except`; in-place mutation of a caller-supplied array is made explicit by
returning the array's final contents; JavaScript `Map`s become association
lists with `Map.set` / `Map.delete` / `Map.get` translated literally
(set replaces in place for an existing key, appends otherwise).
-/

namespace SubTracker

/-! ## Error model

TypeScript distinguishes plain thrown objects (the `AppError` records built by
`createError` in `error.service.ts`) from `Error` class instances
(`new Error(...)`).  `error instanceof Error` is false for an `AppError`
object literal and `'code' in error` is false for a plain `Error` instance;
both tests appear in the source, so the embedding keeps the two shapes as
separate constructors of one type of throwable JavaScript values. -/

/-- ErrorType enum from `error.service.ts`. -/
inductive ErrorType where
  | authentication
  | database
  | network
  | validation
  | permission
  | unexpected
deriving DecidableEq, Repr

/-- String value of an `ErrorType` member, as used when the type is written
into the `name` field of a standard `Error` (`handleProviderError`). -/
def ErrorType.value : ErrorType → String
  | .authentication => "authentication"
  | .database => "database"
  | .network => "network"
  | .validation => "validation"
  | .permission => "permission"
  | .unexpected => "unexpected"

/-- Throwable JavaScript values used by the engine: either a structured
`AppError` record built by `createError(type, message, code?, originalError?)`,
or a standard `Error` instance (which carries only `name` and `message`). -/
inductive JsError where
  | appErr (ty : ErrorType) (message : String) (code : Option String)
      (original : Option JsError)
  | stdErr (name message : String)

/-- Equality of throwable values is decidable (written by hand because the
derive handler does not support the nested `Option JsError` field). -/
instance instDecEqJsError : DecidableEq JsError := fun a b =>
  match a, b with
  | .stdErr n1 m1, .stdErr n2 m2 =>
      if h : n1 = n2 ∧ m1 = m2 then .isTrue (by rw [h.1, h.2])
      else .isFalse (fun hh => by cases hh; exact h ⟨rfl, rfl⟩)
  | .appErr t1 m1 c1 o1, .appErr t2 m2 c2 o2 =>
      match o1, o2 with
      | none, none =>
          if h : t1 = t2 ∧ m1 = m2 ∧ c1 = c2 then .isTrue (by rw [h.1, h.2.1, h.2.2])
          else .isFalse (fun hh => by cases hh; exact h ⟨rfl, rfl, rfl⟩)
      | some x, some y =>
          match instDecEqJsError x y with
          | .isTrue hxy =>
              if h : t1 = t2 ∧ m1 = m2 ∧ c1 = c2 then
                .isTrue (by rw [h.1, h.2.1, h.2.2, hxy])
              else .isFalse (fun hh => by cases hh; exact h ⟨rfl, rfl, rfl⟩)
          | .isFalse hxy => .isFalse (fun hh => by cases hh; exact hxy rfl)
      | none, some _ => .isFalse (fun hh => by simp at hh)
      | some _, none => .isFalse (fun hh => by simp at hh)
  | .appErr _ _ _ _, .stdErr _ _ => .isFalse (fun hh => JsError.noConfusion hh)
  | .stdErr _ _, .appErr _ _ _ _ => .isFalse (fun hh => JsError.noConfusion hh)

/-- The `type` field of a thrown value, when it is an `AppError` record. -/
def JsError.appErrType? : JsError → Option ErrorType
  | .appErr ty _ _ _ => some ty
  | .stdErr _ _ => none

/-- CurrencyErrorType enum values from `currency.model.ts`. -/
def CurrencyErrorType.INVALID_API_KEY : String := "invalid_api_key"

/-- CurrencyErrorType.RATE_LIMIT_EXCEEDED value. -/
def CurrencyErrorType.RATE_LIMIT_EXCEEDED : String := "rate_limit_exceeded"

/-- CurrencyErrorType.UNSUPPORTED_CURRENCY value. -/
def CurrencyErrorType.UNSUPPORTED_CURRENCY : String := "unsupported_currency"

/-- CurrencyErrorType.INVALID_BASE_CURRENCY value. -/
def CurrencyErrorType.INVALID_BASE_CURRENCY : String := "invalid_base_currency"

/-- CurrencyErrorType.PROVIDER_ERROR value. -/
def CurrencyErrorType.PROVIDER_ERROR : String := "provider_error"

/-- CurrencyErrorType.NETWORK_ERROR value. -/
def CurrencyErrorType.NETWORK_ERROR : String := "network_error"

/-! ## Data model (`currency.model.ts`) -/

/-- ExchangeRateResult from `currency.model.ts`.  The `rates` object is an
association list from currency code to rate. -/
structure ExchangeRateResult where
  base : String
  date : String
  rates : List (String × ℚ)
  provider : String
  timestamp : ℚ
deriving DecidableEq, Repr

/-- CurrencyConversionResult from `currency.model.ts`.  The source fields
`from` and `to` are rendered `fromCur` and `toCur` (`from` is a Lean
keyword). -/
structure CurrencyConversionResult where
  amount : ℚ
  fromCur : String
  toCur : String
  convertedAmount : ℚ
  rate : ℚ
  date : String
  provider : String
deriving DecidableEq, Repr

/-- ExchangeRateCache entry from `currency.model.ts`: cached data plus the
epoch-ms instant it was cached at (`timestamp`) and its time to live. -/
structure ExchangeRateCache where
  data : ExchangeRateResult
  timestamp : ℚ
  ttl : ℚ
deriving DecidableEq, Repr

/-- CurrencyProviderConfig after the constructor of `BaseCurrencyProvider`
has merged it over `DEFAULT_PROVIDER_CONFIG`, so every field is present. -/
structure CurrencyProviderConfig where
  apiKey : String
  cacheTtl : ℚ
  maxRetries : Nat
  initialRetryDelay : ℚ
  maxRetryDelay : ℚ
  timeout : ℚ
deriving DecidableEq, Repr

/-- DEFAULT_PROVIDER_CONFIG from `currency-provider.interface.ts` applied to
an API key: 1 h cache, 3 retries, 1 s initial delay, 30 s max delay, 10 s
timeout. -/
def defaultProviderConfig (apiKey : String) : CurrencyProviderConfig :=
  { apiKey := apiKey
    cacheTtl := 3600000
    maxRetries := 3
    initialRetryDelay := 1000
    maxRetryDelay := 30000
    timeout := 10000 }

/-! ## Association-list operations translating JavaScript `Map` and object
lookups -/

/-- Lookup of `m.get(k)` / `obj[k]` on an association list: first binding
wins, as JavaScript object and `Map` keys are unique. -/
def lookupA {β : Type} (k : String) : List (String × β) → Option β
  | [] => none
  | (k', v) :: rest => if k' = k then some v else lookupA k rest

/-- Translation of `Map.delete(k)`: removes the binding of `k`. -/
def eraseA {β : Type} (k : String) : List (String × β) → List (String × β)
  | [] => []
  | (k', v) :: rest => if k' = k then rest else (k', v) :: eraseA k rest

/-- Translation of `Map.set(k, v)`: replaces in place when `k` is present,
appends at the end otherwise (JavaScript `Map` insertion-order semantics). -/
def setA {β : Type} (k : String) (v : β) : List (String × β) → List (String × β)
  | [] => [(k, v)]
  | (k', v') :: rest => if k' = k then (k, v) :: rest else (k', v') :: setA k v rest

/-- Translation of `Map.has(k)`. -/
def hasA {β : Type} (k : String) (m : List (String × β)) : Bool :=
  (lookupA k m).isSome

/-- Keys of the map in insertion order (`Array.from(map.keys())`). -/
def keysA {β : Type} (m : List (String × β)) : List String :=
  m.map Prod.fst

/-! ## `Array.prototype.sort()` on an array of currency codes

The default JavaScript comparator orders strings by UTF-16 code units, which
agrees with Lean's lexicographic `String` order on the ASCII currency codes
the engine handles.  Since equal strings are indistinguishable values, any
comparison sort returns the same list; insertion sort is used here. -/

/-- Insert a string into an (assumed sorted) list, after any equal entries. -/
def insertSorted (x : String) : List String → List String
  | [] => [x]
  | y :: ys => if x < y then x :: y :: ys else y :: insertSorted x ys

/-- The sorted contents produced by `symbols.sort()`. -/
def jsSort (l : List String) : List String :=
  l.foldr insertSorted []

/-! ## BaseCurrencyProvider (`base-currency-provider.ts`) -/

/-- Call context of one `BaseCurrencyProvider` method invocation: the
provider identity (`this.provider`), the merged configuration
(`this.config`), and the clock readings `Date.now()` and
`new Date().toISOString()` taken during the call. -/
structure ProviderCtx where
  prov : String
  cfg : CurrencyProviderConfig
  now : ℚ
  nowIso : String

/-- Translation of `createCacheKey`:
`provider + "_" + base + "_" + (symbols ? symbols.sort().join("_") : "all")`.
Note the in-place `sort()`; `jsSort` gives the array's contents after it. -/
def createCacheKey (prov base : String) (symbols : Option (List String)) : String :=
  prov ++ "_" ++ base ++ "_" ++
    (match symbols with
     | some l => String.intercalate "_" (jsSort l)
     | none => "all")

/-- Translation of `getCachedRates`: given the cache map and `Date.now()`,
returns the cached data when fresh; deletes the entry when stale.  Returns
the lookup outcome together with the cache map after the call. -/
def getCachedRates (cacheKey : String) (now : ℚ)
    (cache : List (String × ExchangeRateCache)) :
    Option ExchangeRateResult × List (String × ExchangeRateCache) :=
  match lookupA cacheKey cache with
  | some cached =>
      if now - cached.timestamp < cached.ttl then (some cached.data, cache)
      else (none, eraseA cacheKey cache)
  | none => (none, cache)

/-- Translation of `cacheRates`: stores the fetched data under the key with
the configured TTL and the current time. -/
def cacheRates (cacheKey : String) (data : ExchangeRateResult) (now ttl : ℚ)
    (cache : List (String × ExchangeRateCache)) :
    List (String × ExchangeRateCache) :=
  setA cacheKey { data := data, timestamp := now, ttl := ttl } cache

/-- Translation of `handleProviderError`: a value that already is an `Error`
instance is returned unchanged; anything else (in particular every
`AppError` record) is replaced by a fresh standard `Error` whose message is
"Currency exchange service unavailable" and whose name is the string value
of `ErrorType.NETWORK`. -/
def handleProviderError : JsError → JsError
  | .stdErr n m => .stdErr n m
  | .appErr _ _ _ _ => .stdErr ErrorType.network.value "Currency exchange service unavailable"

/-- Outcome of one `getLatestRates` call.  `fetches` counts executions of the
retry-wrapped network fetch (`executeWithRetry(...)`, one logical fetch);
`cacheLookups` counts `getCachedRates` calls; `symbolsAfter` is the content
of the caller-supplied `symbols` array after the call (it is sorted in place
by `createCacheKey`); `fetchArg` records the `(base, symbols)` argument the
provider-specific `fetchLatestRates` received, when it was invoked. -/
structure GetLatestRatesOut where
  result : Except JsError ExchangeRateResult
  cache : List (String × ExchangeRateCache)
  fetches : Nat
  cacheLookups : Nat
  symbolsAfter : Option (List String)
  fetchArg : Option (String × Option (List String))

/-- Translation of `BaseCurrencyProvider.getLatestRates`.  The retry-wrapped
provider fetch `executeWithRetry(() => fetchLatestRates(base, symbols))` is
abstracted as its overall outcome `fetchOutcome` (its internal structure is
studied separately by `executeWithRetry` below). -/
def getLatestRates (ctx : ProviderCtx) (base : String)
    (symbols : Option (List String))
    (fetchOutcome : Except JsError ExchangeRateResult)
    (cache : List (String × ExchangeRateCache)) : GetLatestRatesOut :=
  let sortedSymbols := symbols.map jsSort
  let cacheKey := createCacheKey ctx.prov base symbols
  match getCachedRates cacheKey ctx.now cache with
  | (some cachedResult, cache1) =>
      { result := .ok cachedResult
        cache := cache1
        fetches := 0
        cacheLookups := 1
        symbolsAfter := sortedSymbols
        fetchArg := none }
  | (none, cache1) =>
      match fetchOutcome with
      | .ok result =>
          { result := .ok result
            cache := cacheRates cacheKey result ctx.now ctx.cfg.cacheTtl cache1
            fetches := 1
            cacheLookups := 1
            symbolsAfter := sortedSymbols
            fetchArg := some (base, sortedSymbols) }
      | .error e =>
          { result := .error (handleProviderError e)
            cache := cache1
            fetches := 1
            cacheLookups := 1
            symbolsAfter := sortedSymbols
            fetchArg := some (base, sortedSymbols) }

/-- The `AppError` thrown by `convertCurrency` when the requested rate is
missing (or falsy) in the fetched rates object. -/
def unsupportedCurrencyError (toCur : String) : JsError :=
  .appErr ErrorType.validation ("Currency " ++ toCur ++ " not found in exchange rates")
    (some CurrencyErrorType.UNSUPPORTED_CURRENCY) none

/-- Outcome of one `convertCurrency` call, with the same effect counters as
`GetLatestRatesOut`. -/
structure ConvertCurrencyOut where
  result : Except JsError CurrencyConversionResult
  cache : List (String × ExchangeRateCache)
  fetches : Nat
  cacheLookups : Nat

/-- Translation of `BaseCurrencyProvider.convertCurrency`.  When
`from === to` the identity result is built directly.  Otherwise it calls
`getLatestRates(from, [to])`, reads `rates.rates[to]`, and the JavaScript
test `if (!rate)` rejects both an absent rate and a present rate equal to 0.
Every error escaping the body is rethrown through `handleProviderError`. -/
def convertCurrency (ctx : ProviderCtx) (amount : ℚ) (fromCur toCur : String)
    (fetchOutcome : Except JsError ExchangeRateResult)
    (cache : List (String × ExchangeRateCache)) : ConvertCurrencyOut :=
  if fromCur = toCur then
    { result := .ok
        { amount := amount, fromCur := fromCur, toCur := toCur
          convertedAmount := amount, rate := 1
          date := ctx.nowIso, provider := ctx.prov }
      cache := cache, fetches := 0, cacheLookups := 0 }
  else
    let g := getLatestRates ctx fromCur (some [toCur]) fetchOutcome cache
    match g.result with
    | .error e =>
        { result := .error (handleProviderError e)
          cache := g.cache, fetches := g.fetches, cacheLookups := g.cacheLookups }
    | .ok rates =>
        match lookupA toCur rates.rates with
        | none =>
            { result := .error (handleProviderError (unsupportedCurrencyError toCur))
              cache := g.cache, fetches := g.fetches, cacheLookups := g.cacheLookups }
        | some rate =>
            if rate = 0 then
              { result := .error (handleProviderError (unsupportedCurrencyError toCur))
                cache := g.cache, fetches := g.fetches, cacheLookups := g.cacheLookups }
            else
              { result := .ok
                  { amount := amount, fromCur := fromCur, toCur := toCur
                    convertedAmount := amount * rate, rate := rate
                    date := rates.date, provider := ctx.prov }
                cache := g.cache, fetches := g.fetches, cacheLookups := g.cacheLookups }

/-! ## Retry engine (`executeWithRetry` / `executeWithTimeout`)

One attempt of the inner fetch function, raced against the timeout timer, is
modelled by its observable outcome: either the function settles first (with a
value or a thrown error), or the timer fires first. -/

/-- Outcome of racing one execution of the fetch function against the
`setTimeout` timer of `executeWithTimeout`. -/
inductive FetchAttempt (α : Type) where
  | completes (r : Except JsError α)
  | timesOut

/-- The `AppError` the timeout timer rejects with in `executeWithTimeout`. -/
def timeoutError : JsError :=
  .appErr ErrorType.network "Request timed out" (some CurrencyErrorType.NETWORK_ERROR) none

/-- Translation of `executeWithTimeout`: `Promise.race` of the function
against the timer; the timer firing first rejects with `timeoutError`. -/
def executeWithTimeout {α : Type} : FetchAttempt α → Except JsError α
  | .completes r => r
  | .timesOut => .error timeoutError

/-- Translation of `isClientError`: true exactly for thrown objects that have
a `code` property whose value is one of the three client-side
`CurrencyErrorType` codes.  An `AppError` always has the property (possibly
`undefined`, which is not in the list); a standard `Error` does not. -/
def isClientError : JsError → Bool
  | .appErr _ _ (some c) _ =>
      c = CurrencyErrorType.INVALID_API_KEY ∨
      c = CurrencyErrorType.INVALID_BASE_CURRENCY ∨
      c = CurrencyErrorType.UNSUPPORTED_CURRENCY
  | .appErr _ _ none _ => false
  | .stdErr _ _ => false

/-- Translation of `calculateBackoffDelay`: exponential backoff
`initialRetryDelay * 2^attempt`, plus the sampled jitter (the value of
`Math.random() * 1000`, between 0 and 1000 ms), capped at
`maxRetryDelay`. -/
def calculateBackoffDelay (cfg : CurrencyProviderConfig) (attempt : Nat) (jitter : ℚ) : ℚ :=
  min (cfg.initialRetryDelay * 2 ^ attempt + jitter) cfg.maxRetryDelay

/-- Trace of one `executeWithRetry` call: its overall outcome, the number of
executions of the inner fetch function, and the backoff delays waited
between attempts, in order. -/
structure RetryTrace (α : Type) where
  result : Except JsError α
  attempts : Nat
  waits : List ℚ

/-- Loop body of `executeWithRetry`, for
`attempt = attempt, attempt+1, ..., maxRetries`.  `attempts` samples the
outcome of the `attempt`-th execution; `jitter` samples `Math.random()*1000`
for the `attempt`-th backoff computation.  The fuel argument is only for
termination; the loop itself stops via the `attempt >= maxRetries` test,
exactly as the source.  (The sentinel returned at fuel 0 is unreachable
whenever `fuel = maxRetries + 1 - attempt`, which the top-level entry
ensures.) -/
def executeWithRetryGo {α : Type} (cfg : CurrencyProviderConfig)
    (attempts : Nat → FetchAttempt α) (jitter : Nat → ℚ) :
    Nat → Nat → RetryTrace α
  | _, 0 => { result := .error (.stdErr "Error" "unreachable"), attempts := 0, waits := [] }
  | attempt, fuel + 1 =>
      match executeWithTimeout (attempts attempt) with
      | .ok a => { result := .ok a, attempts := 1, waits := [] }
      | .error e =>
          if isClientError e then
            { result := .error e, attempts := 1, waits := [] }
          else if cfg.maxRetries ≤ attempt then
            { result := .error e, attempts := 1, waits := [] }
          else
            let d := calculateBackoffDelay cfg attempt (jitter attempt)
            let t := executeWithRetryGo cfg attempts jitter (attempt + 1) fuel
            { result := t.result, attempts := t.attempts + 1, waits := d :: t.waits }

/-- Translation of `executeWithRetry`: the loop starting at attempt 0, with
enough fuel for the `maxRetries + 1` iterations of the source's `for` loop. -/
def executeWithRetry {α : Type} (cfg : CurrencyProviderConfig)
    (attempts : Nat → FetchAttempt α) (jitter : Nat → ℚ) : RetryTrace α :=
  executeWithRetryGo cfg attempts jitter 0 (cfg.maxRetries + 1)

/-- Attempt `k` failed with a retryable (non-client) error. -/
def RetryableFailureAt {α : Type} (attempts : Nat → FetchAttempt α) (k : Nat) : Prop :=
  ∃ e, executeWithTimeout (attempts k) = .error e ∧ isClientError e = false

/-! ## ExchangeRate-API provider (`exchange-rate-api-provider.ts`) -/

/-- Translation of `handleExchangeRateApiError`: maps the `error_type` field
of an ExchangeRate-API error response to an `AppError` of the shared
taxonomy.  The raw response object attached as `originalError` carries no
information used anywhere in the engine and is modelled as `none`. -/
def handleExchangeRateApiError (errorType : String) (errorMessage : String) : JsError :=
  if errorType = "unsupported-code" then
    .appErr ErrorType.validation "Unsupported currency code"
      (some CurrencyErrorType.UNSUPPORTED_CURRENCY) none
  else if errorType = "malformed-request" then
    .appErr ErrorType.validation "Invalid API request format"
      (some CurrencyErrorType.PROVIDER_ERROR) none
  else if errorType = "invalid-key" then
    .appErr ErrorType.authentication "Invalid API key"
      (some CurrencyErrorType.INVALID_API_KEY) none
  else if errorType = "inactive-account" then
    .appErr ErrorType.authentication "API key has been deactivated"
      (some CurrencyErrorType.INVALID_API_KEY) none
  else if errorType = "quota-reached" then
    .appErr ErrorType.permission "API request quota has been reached"
      (some CurrencyErrorType.RATE_LIMIT_EXCEEDED) none
  else
    .appErr ErrorType.unexpected errorMessage
      (some CurrencyErrorType.PROVIDER_ERROR) none

/-- Whether a thrown value is an `Error` class instance
(`error instanceof Error`): true for standard errors, false for the plain
`AppError` object literals `createError` builds. -/
def isErrorInstance : JsError → Bool
  | .stdErr _ _ => true
  | .appErr _ _ _ _ => false

/-- Whether a thrown value has a `type` property (`'type' in error`): true
for `AppError` records, false for standard `Error` instances. -/
def hasTypeProp : JsError → Bool
  | .stdErr _ _ => false
  | .appErr _ _ _ _ => true

/-- Translation of the `catch` clause of
`ExchangeRateApiProvider.fetchLatestRates`: the error actually thrown out of
the fetch for a raised value `e` is
`(!(e instanceof Error) || !('type' in e)) ? handleProviderError(e) : e`.
For an `AppError` the first disjunct is true, for a standard `Error` the
second is, so every raised value passes through `handleProviderError`. -/
def fetchRaisedError (e : JsError) : JsError :=
  if !(isErrorInstance e) || !(hasTypeProp e) then handleProviderError e else e

/-! ## Provider registry (`currency-provider-factory.ts`) -/

/-- ExchangeRateProvider.EXCHANGE_RATE_API, the only member of the
`ExchangeRateProvider` enum in `currency.model.ts`, and the facade's
`DEFAULT_PROVIDER`. -/
def EXCHANGE_RATE_API : String := "exchangerate-api"

/-- A provider instance as the registry stores it: what matters to the
registry and facade is its readonly `provider` identity field (the behavior
of its methods is supplied separately per call as an outcome oracle). -/
structure ProvInstance where
  providerField : String
deriving DecidableEq

/-- Constructor dispatch of `CurrencyProviderFactory.initializeProvider`:
the known identity builds an `ExchangeRateApiProvider`, and the `default`
branch of the `switch` logs a warning and also falls back to
`ExchangeRateApiProvider`, so every instance the factory creates carries
`provider = EXCHANGE_RATE_API`. -/
def mkFactoryInstance (_identity : String) : ProvInstance :=
  { providerField := EXCHANGE_RATE_API }

/-- State of the `CurrencyProviderFactory` singleton: the providers map in
insertion order, and the active identity. -/
structure RegistryState where
  providers : List (String × ProvInstance)
  active : Option String
deriving DecidableEq

/-- The freshly constructed factory: empty map, no active provider. -/
def initialRegistry : RegistryState := { providers := [], active := none }

/-- Translation of `initializeProvider`: stores the constructed instance
under the identity and, when no provider is active yet, activates this
one. -/
def initializeProvider (identity : String) (st : RegistryState) : RegistryState :=
  { providers := setA identity (mkFactoryInstance identity) st.providers
    active := match st.active with
      | none => some identity
      | some a => some a }

/-- Translation of `setActiveProvider`: activates an initialized identity;
throws (leaving the state unchanged) for an uninitialized one.  The boolean
reports whether the call succeeded. -/
def setActiveProvider (identity : String) (st : RegistryState) : RegistryState × Bool :=
  if hasA identity st.providers then
    ({ st with active := some identity }, true)
  else (st, false)

/-- Translation of `getActiveProvider`: the instance stored under the active
identity, or the thrown `Error` when no active provider is available. -/
def getActiveProvider (st : RegistryState) : Except JsError ProvInstance :=
  match st.active with
  | none => .error (.stdErr "Error" "No active currency provider available")
  | some a =>
      match lookupA a st.providers with
      | none => .error (.stdErr "Error" "No active currency provider available")
      | some inst => .ok inst

/-- Loop of `autoSelectProvider` over the snapshot of initialized identities:
the first whose `testConnection()` resolves to true is activated (a thrown
`testConnection` is caught and treated like false). -/
def autoSelectGo (test : String → Bool) (st : RegistryState) :
    List String → RegistryState × Bool
  | [] => (st, false)
  | p :: rest =>
      if test p then ((setActiveProvider p st).1, true)
      else autoSelectGo test st rest

/-- Translation of `autoSelectProvider`, with `test` the per-identity
outcome of `testConnection()`. -/
def autoSelectProvider (test : String → Bool) (st : RegistryState) :
    RegistryState × Bool :=
  autoSelectGo test st (keysA st.providers)

/-- One registry operation, for quantifying over call sequences.  The
read-only operations (`getActiveProvider`, `getProvider`, `hasProvider`,
`getAvailableProviders`) do not modify the state and are represented as
explicit no-op steps. -/
inductive RegOp where
  | initP (identity : String)
  | setActive (identity : String)
  | autoSelect (test : String → Bool)
  | readGetActive
  | readGetProvider (identity : String)
  | readHasProvider (identity : String)

/-- State transition of one registry operation. -/
def stepReg (st : RegistryState) : RegOp → RegistryState
  | .initP identity => initializeProvider identity st
  | .setActive identity => (setActiveProvider identity st).1
  | .autoSelect test => (autoSelectProvider test st).1
  | .readGetActive => st
  | .readGetProvider _ => st
  | .readHasProvider _ => st

/-- Registry invariant of claim C8: the active identity, when set, is a key
of the providers map. -/
def RegInv (st : RegistryState) : Prop :=
  ∀ a, st.active = some a → hasA a st.providers = true

/-! ## Exchange facade (`currency.service.ts`) -/

/-- State the facade operates on: the factory singleton plus the
`localStorage` slot under `ACTIVE_PROVIDER_STORAGE_KEY`. -/
structure FacadeState where
  reg : RegistryState
  store : Option String
deriving DecidableEq

/-- Translation of the facade's `setActiveCurrencyProvider`: rejects an
uninitialized identity, otherwise activates it in the factory and persists
it to `localStorage`. -/
def setActiveCurrencyProvider (identity : String) (st : FacadeState) :
    FacadeState × Bool :=
  if hasA identity st.reg.providers then
    ({ reg := (setActiveProvider identity st.reg).1, store := some identity }, true)
  else (st, false)

/-- Translation of the facade's `getActiveCurrencyProvider`: the active
instance's `provider` field, or `DEFAULT_PROVIDER` when the registry's
`getActiveProvider` throws. -/
def getActiveCurrencyProvider (st : FacadeState) : String :=
  match getActiveProvider st.reg with
  | .ok inst => inst.providerField
  | .error _ => EXCHANGE_RATE_API

/-- The summary `AppError` the facade throws when every provider failed,
wrapping the error it caught from the initial attempt. -/
def currencyServiceUnavailable (message : String) (cause : JsError) : JsError :=
  .appErr ErrorType.network message (some "currency_service_unavailable") (some cause)

/-- The fallback loop of the facade: try each alternate identity in order,
returning the first success together with its identity. -/
def tryAlternates (outcomes : String → Except JsError ExchangeRateResult) :
    List String → Option (String × ExchangeRateResult)
  | [] => none
  | p :: rest =>
      match outcomes p with
      | .ok r => some (p, r)
      | .error _ => tryAlternates outcomes rest

/-- The `try` body of `getLatestExchangeRates` / `convertCurrency`: with an
initialized override identity, call that provider directly; otherwise call
the active provider (whose lookup itself may throw).  `outcomes` gives the
outcome of the one provider call made against a given identity. -/
def facadeAttempt (st : FacadeState) (override : Option String)
    (outcomes : String → Except JsError ExchangeRateResult) :
    Except JsError ExchangeRateResult :=
  match override with
  | some p =>
      if hasA p st.reg.providers then outcomes p
      else
        match getActiveProvider st.reg with
        | .error e => .error e
        | .ok _ =>
            match st.reg.active with
            | some a => outcomes a
            | none => .error (.stdErr "Error" "No active currency provider available")
  | none =>
      match getActiveProvider st.reg with
      | .error e => .error e
      | .ok _ =>
          match st.reg.active with
          | some a => outcomes a
          | none => .error (.stdErr "Error" "No active currency provider available")

/-- Translation of the facade's `getLatestExchangeRates` (and, with a
different summary message, of the facade's `convertCurrency`, whose body is
identical): on failure of the initial attempt, and only without an override
and with more than one initialized provider, iterate the identities other
than the active instance's `provider` field, adopt and persist the first
that succeeds, and otherwise throw the summary error wrapping the error of
the initial attempt. -/
def facadeCall (message : String) (st : FacadeState) (override : Option String)
    (outcomes : String → Except JsError ExchangeRateResult) :
    Except JsError ExchangeRateResult × FacadeState :=
  match facadeAttempt st override outcomes with
  | .ok r => (.ok r, st)
  | .error e0 =>
      if override = none ∧ 1 < (keysA st.reg.providers).length then
        match getActiveProvider st.reg with
        | .error e' => (.error e', st)
        | .ok activeInst =>
            let others := (keysA st.reg.providers).filter
              (fun p => p ≠ activeInst.providerField)
            match tryAlternates outcomes others with
            | some (p, r) => (.ok r, (setActiveCurrencyProvider p st).1)
            | none => (.error (currencyServiceUnavailable message e0), st)
      else (.error (currencyServiceUnavailable message e0), st)

/-- The facade's `getLatestExchangeRates`, specialized to its summary
message. -/
def getLatestExchangeRates (st : FacadeState) (override : Option String)
    (outcomes : String → Except JsError ExchangeRateResult) :
    Except JsError ExchangeRateResult × FacadeState :=
  facadeCall "Unable to fetch exchange rates from any provider" st override outcomes

/-! ## Lemmas about `jsSort` -/

/-- Membership is preserved by `insertSorted`. -/
theorem mem_insertSorted {x z : String} : ∀ {l : List String},
    z ∈ insertSorted x l ↔ z = x ∨ z ∈ l := by
  intro l
  induction l with
  | nil => simp [insertSorted]
  | cons y ys ih =>
      by_cases hxy : x < y
      · simp [insertSorted, hxy]
      · simp [insertSorted, hxy, ih]
        tauto

/-- Inserting into a sorted list keeps it sorted. -/
theorem sorted_insertSorted (x : String) : ∀ {l : List String},
    l.Sorted (· ≤ ·) → (insertSorted x l).Sorted (· ≤ ·) := by
  intro l
  induction l with
  | nil => intro _; simp [insertSorted]
  | cons y ys ih =>
      intro h
      rw [List.sorted_cons] at h
      obtain ⟨hy, hys⟩ := h
      by_cases hxy : x < y
      · rw [insertSorted, if_pos hxy, List.sorted_cons]
        refine ⟨?_, ?_⟩
        · intro b hb
          rcases List.mem_cons.mp hb with hb | hb
          · exact hb ▸ le_of_lt hxy
          · exact le_trans (le_of_lt hxy) (hy b hb)
        · rw [List.sorted_cons]; exact ⟨hy, hys⟩
      · rw [insertSorted, if_neg hxy, List.sorted_cons]
        refine ⟨?_, ih hys⟩
        intro b hb
        rcases mem_insertSorted.mp hb with hb | hb
        · exact hb ▸ le_of_not_lt hxy
        · exact hy b hb

/-- `jsSort` produces a list sorted in the (UTF-16 / lexicographic) string
order used by the default JavaScript comparator. -/
theorem sorted_jsSort (l : List String) : (jsSort l).Sorted (· ≤ ·) := by
  induction l with
  | nil => simp [jsSort]
  | cons x xs ih => exact sorted_insertSorted x ih

/-! ## Lemmas about the retry loop -/

section RetryLemmas

variable {α : Type} (cfg : CurrencyProviderConfig) (attempts : Nat → FetchAttempt α)
  (jitter : Nat → ℚ)

/-- The loop executes the fetch at least once and at most `fuel` times. -/
theorem retryGo_attempts_bounds : ∀ (fuel a : Nat), 0 < fuel →
    a + fuel = cfg.maxRetries + 1 →
    1 ≤ (executeWithRetryGo cfg attempts jitter a fuel).attempts ∧
    (executeWithRetryGo cfg attempts jitter a fuel).attempts ≤ fuel := by
  intro fuel
  induction fuel with
  | zero => intro a h; omega
  | succ f ih =>
      intro a _ hinv
      rw [executeWithRetryGo]
      cases hE : executeWithTimeout (attempts a) with
      | ok v => simp
      | error e =>
          by_cases hc : isClientError e = true
          · simp [hc]
          · by_cases hm : cfg.maxRetries ≤ a
            · simp [hc, hm]
            · have hf : 0 < f := by omega
              have := ih (a + 1) hf (by omega)
              simp [hc, hm]
              omega

/-- Under the loop invariant `a + fuel = maxRetries + 1`, the recorded waits
are exactly the capped exponential-backoff delays of the attempts before
the final one. -/
theorem retryGo_waits : ∀ (fuel a : Nat), 0 < fuel →
    a + fuel = cfg.maxRetries + 1 →
    (executeWithRetryGo cfg attempts jitter a fuel).waits =
      (List.range ((executeWithRetryGo cfg attempts jitter a fuel).attempts - 1)).map
        (fun i => calculateBackoffDelay cfg (a + i) (jitter (a + i))) := by
  intro fuel
  induction fuel with
  | zero => intro a h; omega
  | succ f ih =>
      intro a _ hinv
      rw [executeWithRetryGo]
      cases hE : executeWithTimeout (attempts a) with
      | ok v => simp
      | error e =>
          by_cases hc : isClientError e = true
          · simp [hc]
          · by_cases hm : cfg.maxRetries ≤ a
            · simp [hc, hm]
            · have hf : 0 < f := by omega
              have h1 := retryGo_attempts_bounds cfg attempts jitter f (a + 1) hf (by omega)
              have h2 := ih (a + 1) hf (by omega)
              obtain ⟨hlo, _⟩ := h1
              simp [hc, hm]
              obtain ⟨n, hn⟩ : ∃ n,
                  (executeWithRetryGo cfg attempts jitter (a + 1) f).attempts = n + 1 :=
                ⟨_, (Nat.succ_pred_eq_of_pos hlo).symm⟩
              rw [hn] at h2 ⊢
              simp only [Nat.add_sub_cancel] at h2
              rw [List.range_succ_eq_map, List.map_cons, List.map_map, h2]
              simp only [Nat.add_zero, Function.comp]
              congr 1
              apply List.map_congr_left
              intro i _
              simp only [Function.comp_apply, Nat.succ_eq_add_one]
              have hi : a + 1 + i = a + (i + 1) := by omega
              rw [hi]

/-- Every attempt strictly before the final one failed with a retryable
(non-client) error. -/
theorem retryGo_prefix_fail : ∀ (fuel a : Nat),
    ∀ i, i + 1 < (executeWithRetryGo cfg attempts jitter a fuel).attempts →
    RetryableFailureAt attempts (a + i) := by
  intro fuel
  induction fuel with
  | zero =>
      intro a i h
      simp [executeWithRetryGo] at h
  | succ f ih =>
      intro a i h
      rw [executeWithRetryGo] at h
      cases hE : executeWithTimeout (attempts a) with
      | ok v => rw [hE] at h; simp at h
      | error e =>
          rw [hE] at h
          by_cases hc : isClientError e = true
          · simp [hc] at h
          · by_cases hm : cfg.maxRetries ≤ a
            · simp [hc, hm] at h
            · simp [hc, hm] at h
              cases i with
              | zero =>
                  exact ⟨e, hE, Bool.eq_false_iff.mpr hc⟩
              | succ j =>
                  have hj : j + 1 < (executeWithRetryGo cfg attempts jitter (a + 1) f).attempts := by
                    omega
                  have := ih (a + 1) j hj
                  have heq : a + 1 + j = a + (j + 1) := by omega
                  rwa [heq] at this

/-- When attempt `a + i` is reached (all earlier attempts failed retryably)
and it fails with a client error, the loop stops there and propagates that
error. -/
theorem retryGo_client_stop : ∀ (fuel a : Nat), a + fuel = cfg.maxRetries + 1 →
    ∀ i e, a + i ≤ cfg.maxRetries →
    (∀ j, j < i → RetryableFailureAt attempts (a + j)) →
    executeWithTimeout (attempts (a + i)) = .error e →
    isClientError e = true →
    (executeWithRetryGo cfg attempts jitter a fuel).result = .error e ∧
    (executeWithRetryGo cfg attempts jitter a fuel).attempts = i + 1 := by
  intro fuel
  induction fuel with
  | zero => intro a hinv i e hle _ _ _; omega
  | succ f ih =>
      intro a hinv i e hle hpre hE hc
      rw [executeWithRetryGo]
      cases i with
      | zero =>
          simp only [Nat.add_zero] at hE
          rw [hE]
          simp [hc]
      | succ j =>
          obtain ⟨e0, hE0, hnc0⟩ := hpre 0 (by omega)
          simp only [Nat.add_zero] at hE0
          rw [hE0]
          have hm : ¬cfg.maxRetries ≤ a := by omega
          simp only [hnc0, Bool.false_eq_true, if_false]
          rw [if_neg hm]
          simp only []
          have hrec := ih (a + 1) (by omega) j e (by omega)
            (fun j' hj' => by
              have := hpre (j' + 1) (by omega)
              have heq : a + (j' + 1) = a + 1 + j' := by omega
              rwa [heq] at this)
            (by
              have heq : a + (j + 1) = a + 1 + j := by omega
              rw [← heq]
              exact hE)
            hc
          exact ⟨hrec.1, by rw [hrec.2]⟩

/-- When every attempt the loop can make fails retryably, the loop runs all
`fuel` attempts and propagates the error of the last one. -/
theorem retryGo_exhaust : ∀ (fuel a : Nat), 0 < fuel →
    a + fuel = cfg.maxRetries + 1 →
    (∀ j, j < fuel → RetryableFailureAt attempts (a + j)) →
    (executeWithRetryGo cfg attempts jitter a fuel).attempts = fuel ∧
    ∃ e, executeWithTimeout (attempts (a + (fuel - 1))) = .error e ∧
      (executeWithRetryGo cfg attempts jitter a fuel).result = .error e := by
  intro fuel
  induction fuel with
  | zero => intro a h; omega
  | succ f ih =>
      intro a _ hinv hall
      obtain ⟨e0, hE0, hnc0⟩ := hall 0 (by omega)
      simp only [Nat.add_zero] at hE0
      rw [executeWithRetryGo, hE0]
      simp only [hnc0, Bool.false_eq_true, if_false]
      rcases Nat.eq_zero_or_pos f with hf | hf
      · subst hf
        have hm : cfg.maxRetries ≤ a := by omega
        rw [if_pos hm]
        exact ⟨rfl, e0, by simpa using hE0, rfl⟩
      · have hm : ¬cfg.maxRetries ≤ a := by omega
        rw [if_neg hm]
        simp only []
        have hrec := ih (a + 1) hf (by omega)
          (fun j hj => by
            have := hall (j + 1) (by omega)
            have heq : a + (j + 1) = a + 1 + j := by omega
            rwa [heq] at this)
        obtain ⟨hatt, e, hEe, hres⟩ := hrec
        refine ⟨by rw [hatt], e, ?_, hres⟩
        have heq : a + (f + 1 - 1) = a + 1 + (f - 1) := by omega
        rwa [heq]

end RetryLemmas

/-! ## Lemmas about the registry map and the C8 invariant -/

/-- After `setA k v`, looking up `k` finds `v`. -/
theorem lookupA_setA_self {β : Type} (k : String) (v : β) :
    ∀ m : List (String × β), lookupA k (setA k v m) = some v := by
  intro m
  induction m with
  | nil => simp [setA, lookupA]
  | cons kv rest ih =>
      obtain ⟨k', v'⟩ := kv
      by_cases hk : k' = k
      · simp [setA, hk, lookupA]
      · simp [setA, hk, lookupA, ih]

/-- `setA k v` does not change the binding of any other key. -/
theorem lookupA_setA_ne {β : Type} (k a : String) (v : β) (hka : k ≠ a) :
    ∀ m : List (String × β), lookupA a (setA k v m) = lookupA a m := by
  intro m
  induction m with
  | nil => simp [setA, lookupA, hka]
  | cons kv rest ih =>
      obtain ⟨k', v'⟩ := kv
      by_cases hk : k' = k
      · subst hk
        simp [setA, lookupA, hka]
      · simp [setA, hk, lookupA, ih]

/-- `setA` preserves the presence of every key. -/
theorem hasA_setA_mono {β : Type} (k a : String) (v : β) (m : List (String × β))
    (h : hasA a m = true) : hasA a (setA k v m) = true := by
  by_cases hka : k = a
  · subst hka
    simp [hasA, lookupA_setA_self]
  · simpa [hasA, lookupA_setA_ne k a v hka] using h

/-- The key just set is present. -/
theorem hasA_setA_self {β : Type} (k : String) (v : β) (m : List (String × β)) :
    hasA k (setA k v m) = true := by
  simp [hasA, lookupA_setA_self]

/-- `initializeProvider` preserves the active-in-map invariant. -/
theorem regInv_initializeProvider (identity : String) (st : RegistryState)
    (h : RegInv st) : RegInv (initializeProvider identity st) := by
  intro a ha
  cases hact : st.active with
  | none =>
      simp [initializeProvider, hact] at ha
      subst ha
      exact hasA_setA_self _ _ _
  | some a0 =>
      simp [initializeProvider, hact] at ha
      subst ha
      exact hasA_setA_mono _ _ _ _ (h a0 hact)

/-- `setActiveProvider` preserves the active-in-map invariant. -/
theorem regInv_setActiveProvider (identity : String) (st : RegistryState)
    (h : RegInv st) : RegInv (setActiveProvider identity st).1 := by
  intro a ha
  by_cases hhas : hasA identity st.providers
  · simp [setActiveProvider, hhas] at ha ⊢
    subst ha
    exact hhas
  · simp [setActiveProvider, hhas] at ha ⊢
    exact h a ha

/-- `autoSelectGo` preserves the active-in-map invariant. -/
theorem regInv_autoSelectGo (test : String → Bool) (st : RegistryState)
    (h : RegInv st) : ∀ l : List String, RegInv (autoSelectGo test st l).1 := by
  intro l
  induction l with
  | nil => simpa [autoSelectGo] using h
  | cons p rest ih =>
      by_cases hp : test p = true
      · simp only [autoSelectGo, hp, if_true]
        exact regInv_setActiveProvider p st h
      · simpa [autoSelectGo, hp] using ih

/-- Every single registry operation preserves the active-in-map invariant. -/
theorem regInv_step (st : RegistryState) (op : RegOp) (h : RegInv st) :
    RegInv (stepReg st op) := by
  cases op with
  | initP identity => exact regInv_initializeProvider identity st h
  | setActive identity => exact regInv_setActiveProvider identity st h
  | autoSelect test => exact regInv_autoSelectGo test st h _
  | readGetActive => exact h
  | readGetProvider _ => exact h
  | readHasProvider _ => exact h

/-! ## Helper lemmas about the cache lookup -/

/-- A fresh cache entry is returned and the cache is untouched. -/
theorem getCachedRates_fresh (key : String) (now : ℚ)
    (cache : List (String × ExchangeRateCache)) (entry : ExchangeRateCache)
    (hlk : lookupA key cache = some entry)
    (hfresh : now - entry.timestamp < entry.ttl) :
    getCachedRates key now cache = (some entry.data, cache) := by
  simp [getCachedRates, hlk, hfresh]

/-- A stale cache entry is evicted and nothing is returned. -/
theorem getCachedRates_stale (key : String) (now : ℚ)
    (cache : List (String × ExchangeRateCache)) (entry : ExchangeRateCache)
    (hlk : lookupA key cache = some entry)
    (hstale : entry.ttl ≤ now - entry.timestamp) :
    getCachedRates key now cache = (none, eraseA key cache) := by
  simp [getCachedRates, hlk, not_lt_of_le hstale]

/-- A missing key returns nothing and leaves the cache untouched. -/
theorem getCachedRates_miss (key : String) (now : ℚ)
    (cache : List (String × ExchangeRateCache))
    (hlk : lookupA key cache = none) :
    getCachedRates key now cache = (none, cache) := by
  simp [getCachedRates, hlk]

/-! ## Claim theorems for the provider level -/

/-- C1: for every amount and every currency code `c`,
`convertCurrency(amount, c, c)` succeeds with `rate = 1` and
`convertedAmount = amount`, performs no network fetch and no cache lookup,
and builds the identity result directly from the provider's own identity
and the current date. -/
theorem claim_c1_convertCurrency_identity (ctx : ProviderCtx) (amount : ℚ)
    (c : String) (fetchOutcome : Except JsError ExchangeRateResult)
    (cache : List (String × ExchangeRateCache)) :
    convertCurrency ctx amount c c fetchOutcome cache =
      { result := .ok
          { amount := amount, fromCur := c, toCur := c
            convertedAmount := amount, rate := 1
            date := ctx.nowIso, provider := ctx.prov }
        cache := cache, fetches := 0, cacheLookups := 0 } := by
  simp [convertCurrency]

/-- C7 (amended): for `from ≠ to`, when the `getLatestRates(from, [to])`
call succeeds with result `res`, `convertCurrency` succeeds with
`convertedAmount = amount * rate` and the date of `res` when
`res.rates[to]` is present and nonzero, and fails — raising the
unsupported-currency condition, surfaced through `handleProviderError` —
exactly when the rate is absent from the rates map or present and equal
to 0 (the JavaScript test `!rate` also rejects a zero rate). -/
theorem claim_c7_convertCurrency_rate_lookup (ctx : ProviderCtx) (amount : ℚ)
    (fromCur toCur : String) (fetchOutcome : Except JsError ExchangeRateResult)
    (cache : List (String × ExchangeRateCache)) (res : ExchangeRateResult)
    (hne : fromCur ≠ toCur)
    (hg : (getLatestRates ctx fromCur (some [toCur]) fetchOutcome cache).result = .ok res) :
    (∀ r, lookupA toCur res.rates = some r → r ≠ 0 →
        (convertCurrency ctx amount fromCur toCur fetchOutcome cache).result =
          .ok { amount := amount, fromCur := fromCur, toCur := toCur
                convertedAmount := amount * r, rate := r
                date := res.date, provider := ctx.prov }) ∧
    ((lookupA toCur res.rates = none ∨ lookupA toCur res.rates = some 0) →
        (convertCurrency ctx amount fromCur toCur fetchOutcome cache).result =
          .error (handleProviderError (unsupportedCurrencyError toCur))) := by
  constructor
  · intro r hr hr0
    simp [convertCurrency, hne, hg, hr, hr0]
  · intro h
    rcases h with h | h <;> simp [convertCurrency, hne, hg, h]

/-- C7 witness: at a concrete input with a present nonzero rate the amended
claim computes the conversion. -/
theorem claim_c7_witness :
    (convertCurrency
        { prov := EXCHANGE_RATE_API, cfg := defaultProviderConfig "key"
          now := 0, nowIso := "2026-01-01T00:00:00.000Z" }
        100 "EUR" "USD"
        (.ok { base := "EUR", date := "2026-01-01", rates := [("USD", 2)]
               provider := EXCHANGE_RATE_API, timestamp := 0 })
        []).result =
      .ok { amount := 100, fromCur := "EUR", toCur := "USD"
            convertedAmount := 200, rate := 2
            date := "2026-01-01", provider := EXCHANGE_RATE_API } := by
  have h := (claim_c7_convertCurrency_rate_lookup
    { prov := EXCHANGE_RATE_API, cfg := defaultProviderConfig "key"
      now := 0, nowIso := "2026-01-01T00:00:00.000Z" }
    100 "EUR" "USD"
    (.ok { base := "EUR", date := "2026-01-01", rates := [("USD", 2)]
           provider := EXCHANGE_RATE_API, timestamp := 0 })
    [] { base := "EUR", date := "2026-01-01", rates := [("USD", 2)]
         provider := EXCHANGE_RATE_API, timestamp := 0 }
    (by decide) rfl).1 2 rfl (by norm_num)
  rw [h]
  norm_num

/-- C7 counterexample: a rate that is present in the returned rates map but
equal to 0 also makes `convertCurrency` fail with the unsupported-currency
condition, refuting "fails exactly when that rate is absent from the
returned rates map". -/
theorem claim_c7_counterexample :
    (convertCurrency
        { prov := EXCHANGE_RATE_API, cfg := defaultProviderConfig "key"
          now := 0, nowIso := "2026-01-01T00:00:00.000Z" }
        100 "EUR" "USD"
        (.ok { base := "EUR", date := "2026-01-01", rates := [("USD", 0)]
               provider := EXCHANGE_RATE_API, timestamp := 0 })
        []).result =
      .error (handleProviderError (unsupportedCurrencyError "USD")) ∧
    lookupA "USD" [("USD", (0 : ℚ))] = some 0 := by
  constructor
  · rfl
  · rfl

/-- C4: a `getLatestRates` call that finds a fresh cache entry under the
computed key returns the cached data with no fetch; one that finds a stale
entry evicts it and performs exactly one fetch; and every successful fetch
is stored under the key with the configured `cacheTtl` and the current time
before being returned. -/
theorem claim_c4_getLatestRates_cache (ctx : ProviderCtx) (base : String)
    (symbols : Option (List String))
    (fetchOutcome : Except JsError ExchangeRateResult)
    (cache : List (String × ExchangeRateCache)) :
    (∀ entry, lookupA (createCacheKey ctx.prov base symbols) cache = some entry →
        ctx.now - entry.timestamp < entry.ttl →
        getLatestRates ctx base symbols fetchOutcome cache =
          { result := .ok entry.data, cache := cache, fetches := 0
            cacheLookups := 1, symbolsAfter := symbols.map jsSort, fetchArg := none }) ∧
    (∀ entry, lookupA (createCacheKey ctx.prov base symbols) cache = some entry →
        entry.ttl ≤ ctx.now - entry.timestamp →
        (getLatestRates ctx base symbols fetchOutcome cache).fetches = 1 ∧
        (∀ r, fetchOutcome = .ok r →
            (getLatestRates ctx base symbols fetchOutcome cache).cache =
              setA (createCacheKey ctx.prov base symbols)
                { data := r, timestamp := ctx.now, ttl := ctx.cfg.cacheTtl }
                (eraseA (createCacheKey ctx.prov base symbols) cache) ∧
            (getLatestRates ctx base symbols fetchOutcome cache).result = .ok r) ∧
        (∀ e, fetchOutcome = .error e →
            (getLatestRates ctx base symbols fetchOutcome cache).cache =
              eraseA (createCacheKey ctx.prov base symbols) cache ∧
            (getLatestRates ctx base symbols fetchOutcome cache).result =
              .error (handleProviderError e))) ∧
    (lookupA (createCacheKey ctx.prov base symbols) cache = none →
        (getLatestRates ctx base symbols fetchOutcome cache).fetches = 1 ∧
        (∀ r, fetchOutcome = .ok r →
            (getLatestRates ctx base symbols fetchOutcome cache).cache =
              setA (createCacheKey ctx.prov base symbols)
                { data := r, timestamp := ctx.now, ttl := ctx.cfg.cacheTtl }
                cache ∧
            (getLatestRates ctx base symbols fetchOutcome cache).result = .ok r) ∧
        (∀ e, fetchOutcome = .error e →
            (getLatestRates ctx base symbols fetchOutcome cache).cache = cache ∧
            (getLatestRates ctx base symbols fetchOutcome cache).result =
              .error (handleProviderError e))) := by
  refine ⟨?_, ?_, ?_⟩
  · intro entry hlk hfresh
    have hgc := getCachedRates_fresh _ ctx.now cache entry hlk hfresh
    simp [getLatestRates, hgc]
  · intro entry hlk hstale
    have hgc := getCachedRates_stale _ ctx.now cache entry hlk hstale
    refine ⟨?_, ?_, ?_⟩
    · cases fetchOutcome <;> simp [getLatestRates, hgc]
    · intro r hr
      subst hr
      simp [getLatestRates, hgc, cacheRates]
    · intro e he
      subst he
      simp [getLatestRates, hgc]
  · intro hlk
    have hgc := getCachedRates_miss _ ctx.now cache hlk
    refine ⟨?_, ?_, ?_⟩
    · cases fetchOutcome <;> simp [getLatestRates, hgc]
    · intro r hr
      subst hr
      simp [getLatestRates, hgc, cacheRates]
    · intro e he
      subst he
      simp [getLatestRates, hgc]

/-- C4 witness: a concrete fresh hit returns the cached data without a
fetch, and after TTL expiry a concrete call fetches exactly once and stores
the new result under the same key with the configured TTL. -/
theorem claim_c4_witness :
    (getLatestRates
        { prov := EXCHANGE_RATE_API, cfg := defaultProviderConfig "key"
          now := 1000, nowIso := "t" }
        "EUR" none
        (.ok { base := "EUR", date := "d2", rates := [("USD", 2)]
               provider := EXCHANGE_RATE_API, timestamp := 0 })
        [("exchangerate-api_EUR_all",
          { data := { base := "EUR", date := "d1", rates := [("USD", 1)]
                      provider := EXCHANGE_RATE_API, timestamp := 0 }
            timestamp := 500, ttl := 3600000 })]) =
      { result := .ok { base := "EUR", date := "d1", rates := [("USD", 1)]
                        provider := EXCHANGE_RATE_API, timestamp := 0 }
        cache := [("exchangerate-api_EUR_all",
          { data := { base := "EUR", date := "d1", rates := [("USD", 1)]
                      provider := EXCHANGE_RATE_API, timestamp := 0 }
            timestamp := 500, ttl := 3600000 })]
        fetches := 0, cacheLookups := 1, symbolsAfter := none, fetchArg := none } ∧
    (getLatestRates
        { prov := EXCHANGE_RATE_API, cfg := defaultProviderConfig "key"
          now := 4000000, nowIso := "t" }
        "EUR" none
        (.ok { base := "EUR", date := "d2", rates := [("USD", 2)]
               provider := EXCHANGE_RATE_API, timestamp := 0 })
        [("exchangerate-api_EUR_all",
          { data := { base := "EUR", date := "d1", rates := [("USD", 1)]
                      provider := EXCHANGE_RATE_API, timestamp := 0 }
            timestamp := 500, ttl := 3600000 })]).cache =
      [("exchangerate-api_EUR_all",
        { data := { base := "EUR", date := "d2", rates := [("USD", 2)]
                    provider := EXCHANGE_RATE_API, timestamp := 0 }
          timestamp := 4000000, ttl := 3600000 })] := by
  constructor
  · exact (claim_c4_getLatestRates_cache
      { prov := EXCHANGE_RATE_API, cfg := defaultProviderConfig "key"
        now := 1000, nowIso := "t" }
      "EUR" none
      (.ok { base := "EUR", date := "d2", rates := [("USD", 2)]
             provider := EXCHANGE_RATE_API, timestamp := 0 })
      [("exchangerate-api_EUR_all",
        { data := { base := "EUR", date := "d1", rates := [("USD", 1)]
                    provider := EXCHANGE_RATE_API, timestamp := 0 }
          timestamp := 500, ttl := 3600000 })]).1
      { data := { base := "EUR", date := "d1", rates := [("USD", 1)]
                  provider := EXCHANGE_RATE_API, timestamp := 0 }
        timestamp := 500, ttl := 3600000 }
      rfl (by norm_num)
  · have h := ((claim_c4_getLatestRates_cache
      { prov := EXCHANGE_RATE_API, cfg := defaultProviderConfig "key"
        now := 4000000, nowIso := "t" }
      "EUR" none
      (.ok { base := "EUR", date := "d2", rates := [("USD", 2)]
             provider := EXCHANGE_RATE_API, timestamp := 0 })
      [("exchangerate-api_EUR_all",
        { data := { base := "EUR", date := "d1", rates := [("USD", 1)]
                    provider := EXCHANGE_RATE_API, timestamp := 0 }
          timestamp := 500, ttl := 3600000 })]).2.1 _ rfl (by norm_num)).2.1 _ rfl
    rw [h.1]
    rfl

/-- C9: `getLatestRates` with a non-empty symbols array sorts the
caller-supplied array in place while computing the cache key: after the
call the caller's array is sorted, and when the provider-specific fetch
runs, it receives the sorted array. -/
theorem claim_c9_getLatestRates_sorts (ctx : ProviderCtx) (base : String)
    (l : List String) (fetchOutcome : Except JsError ExchangeRateResult)
    (cache : List (String × ExchangeRateCache)) (_hne : l ≠ []) :
    (getLatestRates ctx base (some l) fetchOutcome cache).symbolsAfter =
      some (jsSort l) ∧
    (jsSort l).Sorted (· ≤ ·) ∧
    (∀ p, (getLatestRates ctx base (some l) fetchOutcome cache).fetchArg = some p →
        p = (base, some (jsSort l))) := by
  rcases hgc : getCachedRates (createCacheKey ctx.prov base (some l)) ctx.now cache
    with ⟨o, cache1⟩
  cases o with
  | some r =>
      refine ⟨?_, sorted_jsSort l, ?_⟩ <;> simp [getLatestRates, hgc]
  | none =>
      cases fetchOutcome with
      | ok r =>
          refine ⟨?_, sorted_jsSort l, ?_⟩ <;> simp [getLatestRates, hgc]
      | error e =>
          refine ⟨?_, sorted_jsSort l, ?_⟩ <;> simp [getLatestRates, hgc]

/-- C9 witness: a concrete call with symbols `["USD", "EUR"]` leaves the
caller's array sorted as `["EUR", "USD"]` and passes that array to the
fetch. -/
theorem claim_c9_witness :
    (getLatestRates
        { prov := EXCHANGE_RATE_API, cfg := defaultProviderConfig "key"
          now := 0, nowIso := "t" }
        "EUR" (some ["USD", "EUR"])
        (.ok { base := "EUR", date := "d", rates := [("USD", 2)]
               provider := EXCHANGE_RATE_API, timestamp := 0 })
        []).symbolsAfter = some ["EUR", "USD"] ∧
    (getLatestRates
        { prov := EXCHANGE_RATE_API, cfg := defaultProviderConfig "key"
          now := 0, nowIso := "t" }
        "EUR" (some ["USD", "EUR"])
        (.ok { base := "EUR", date := "d", rates := [("USD", 2)]
               provider := EXCHANGE_RATE_API, timestamp := 0 })
        []).fetchArg = some ("EUR", some ["EUR", "USD"]) := by
  have h := claim_c9_getLatestRates_sorts
    { prov := EXCHANGE_RATE_API, cfg := defaultProviderConfig "key"
      now := 0, nowIso := "t" }
    "EUR" ["USD", "EUR"]
    (.ok { base := "EUR", date := "d", rates := [("USD", 2)]
           provider := EXCHANGE_RATE_API, timestamp := 0 })
    [] (by simp)
  have hlt : ¬(("USD" : String) < "EUR") := by
    rw [String.lt_iff_toList_lt]
    decide
  have hsort : jsSort ["USD", "EUR"] = ["EUR", "USD"] := by
    simp [jsSort, insertSorted, hlt]
  refine ⟨?_, ?_⟩
  · rw [h.1, hsort]
  · have hfa : (getLatestRates
        { prov := EXCHANGE_RATE_API, cfg := defaultProviderConfig "key"
          now := 0, nowIso := "t" }
        "EUR" (some ["USD", "EUR"])
        (.ok { base := "EUR", date := "d", rates := [("USD", 2)]
               provider := EXCHANGE_RATE_API, timestamp := 0 })
        []).fetchArg = some ("EUR", some (jsSort ["USD", "EUR"])) := rfl
    rw [hfa, hsort]

/-! ## Claim theorems for the retry loop -/

/-- C3: on a cache miss, `executeWithRetry` runs the inner fetch at most
`maxRetries + 1` times; the timeout timer firing is treated as a retryable
network error; the waits between attempts are exactly
`min(initialRetryDelay * 2^attempt + jitter, maxRetryDelay)` with the
sampled jitter in `[0, 1000)`; a failure carrying one of the codes
`invalid_api_key`, `invalid_base_currency`, `unsupported_currency` is
propagated immediately with no further attempts; and when all attempts are
exhausted the last error is propagated. -/
theorem claim_c3_executeWithRetry {α : Type} (cfg : CurrencyProviderConfig)
    (attempts : Nat → FetchAttempt α) (jitter : Nat → ℚ)
    (_hjit : ∀ k, 0 ≤ jitter k ∧ jitter k < 1000) :
    (1 ≤ (executeWithRetry cfg attempts jitter).attempts ∧
     (executeWithRetry cfg attempts jitter).attempts ≤ cfg.maxRetries + 1) ∧
    (executeWithTimeout (FetchAttempt.timesOut : FetchAttempt α) = .error timeoutError ∧
     isClientError timeoutError = false) ∧
    ((executeWithRetry cfg attempts jitter).waits =
      (List.range ((executeWithRetry cfg attempts jitter).attempts - 1)).map
        (fun k => min (cfg.initialRetryDelay * 2 ^ k + jitter k) cfg.maxRetryDelay)) ∧
    (∀ k, k + 1 < (executeWithRetry cfg attempts jitter).attempts →
        RetryableFailureAt attempts k) ∧
    (∀ k e, k ≤ cfg.maxRetries →
        (∀ j, j < k → RetryableFailureAt attempts j) →
        executeWithTimeout (attempts k) = .error e →
        isClientError e = true →
        (executeWithRetry cfg attempts jitter).result = .error e ∧
        (executeWithRetry cfg attempts jitter).attempts = k + 1) ∧
    ((∀ j, j ≤ cfg.maxRetries → RetryableFailureAt attempts j) →
        (executeWithRetry cfg attempts jitter).attempts = cfg.maxRetries + 1 ∧
        ∃ e, executeWithTimeout (attempts cfg.maxRetries) = .error e ∧
          (executeWithRetry cfg attempts jitter).result = .error e) := by
  refine ⟨?_, ⟨rfl, rfl⟩, ?_, ?_, ?_, ?_⟩
  · exact retryGo_attempts_bounds cfg attempts jitter (cfg.maxRetries + 1) 0
      (by omega) (by omega)
  · have h := retryGo_waits cfg attempts jitter (cfg.maxRetries + 1) 0 (by omega) (by omega)
    simpa [executeWithRetry, calculateBackoffDelay] using h
  · intro k hk
    have h := retryGo_prefix_fail cfg attempts jitter (cfg.maxRetries + 1) 0 k
      (by simpa [executeWithRetry] using hk)
    simpa using h
  · intro k e hk hpre hE hc
    have h := retryGo_client_stop cfg attempts jitter (cfg.maxRetries + 1) 0 (by omega)
      k e (by omega) (fun j hj => by simpa using hpre j hj) (by simpa using hE) hc
    exact h
  · intro hall
    have h := retryGo_exhaust cfg attempts jitter (cfg.maxRetries + 1) 0 (by omega) (by omega)
      (fun j hj => by simpa using hall j (by omega))
    obtain ⟨h1, e, h2, h3⟩ := h
    exact ⟨h1, e, by simpa using h2, h3⟩

/-- C3 witness: with all defaults, an immediately succeeding fetch makes
between 1 and `maxRetries + 1 = 4` attempts. -/
theorem claim_c3_witness :
    1 ≤ (executeWithRetry (defaultProviderConfig "key")
          (fun _ => .completes (.ok (1 : Nat))) (fun _ => 0)).attempts ∧
    (executeWithRetry (defaultProviderConfig "key")
          (fun _ => .completes (.ok (1 : Nat))) (fun _ => 0)).attempts ≤ 3 + 1 := by
  have h := claim_c3_executeWithRetry (defaultProviderConfig "key")
    (fun _ => .completes (.ok (1 : Nat))) (fun _ => 0)
    (fun _ => ⟨le_refl 0, by norm_num⟩)
  exact h.1

/-- C5 (code-bug evidence): the ExchangeRate-API `invalid-key` response maps
to an authentication `AppError` carrying the client code `invalid_api_key`,
which the retry loop would never retry — but the catch clause of
`fetchLatestRates` wraps it into a code-less standard `Error`, so
`isClientError` is false for what the retry loop actually sees, and with
`maxRetries = 1` the loop executes the fetch twice instead of once. -/
theorem claim_c5_invalid_key_retried :
    isClientError (handleExchangeRateApiError "invalid-key" "msg") = true ∧
    (handleExchangeRateApiError "invalid-key" "msg").appErrType? = some ErrorType.authentication ∧
    fetchRaisedError (handleExchangeRateApiError "invalid-key" "msg") =
      .stdErr "network" "Currency exchange service unavailable" ∧
    isClientError (fetchRaisedError (handleExchangeRateApiError "invalid-key" "msg")) = false ∧
    (executeWithRetry
        { defaultProviderConfig "key" with maxRetries := 1 }
        (fun _ => (FetchAttempt.completes (Except.error
          (fetchRaisedError (handleExchangeRateApiError "invalid-key" "msg")))
          : FetchAttempt ExchangeRateResult))
        (fun _ => 0)).attempts = 2 := by
  refine ⟨rfl, rfl, rfl, rfl, rfl⟩

/-! ## Helper lemmas about the facade -/

/-- A key listed in `keysA` has a binding. -/
theorem hasA_of_mem_keysA {β : Type} (a : String) :
    ∀ m : List (String × β), a ∈ keysA m → hasA a m = true := by
  intro m
  induction m with
  | nil => simp [keysA]
  | cons kv rest ih =>
      obtain ⟨k', v'⟩ := kv
      intro h
      by_cases hk : k' = a
      · simp [hasA, lookupA, hk]
      · simp [keysA, hk] at h
        rcases h with h | h
        · exact absurd h.symm hk
        · simpa [hasA, lookupA, hk] using ih (by simpa [keysA] using h)

/-- The fallback loop returns the first succeeding alternate. -/
theorem tryAlternates_first_success (outcomes : String → Except JsError ExchangeRateResult)
    (k : String) (r : ExchangeRateResult) (rest : List String) :
    ∀ pre, (∀ p ∈ pre, ∃ ep, outcomes p = .error ep) → outcomes k = .ok r →
    tryAlternates outcomes (pre ++ k :: rest) = some (k, r) := by
  intro pre
  induction pre with
  | nil => intro _ hk; simp [tryAlternates, hk]
  | cons p ps ih =>
      intro hpre hk
      obtain ⟨ep, hep⟩ := hpre p (by simp)
      simp only [List.cons_append, tryAlternates, hep]
      exact ih (fun q hq => hpre q (by simp [hq])) hk

/-- Activating an initialized identity through the facade sets the registry
pointer and persists the identity. -/
theorem setActiveCurrencyProvider_initialized (k : String) (st : FacadeState)
    (hk : hasA k st.reg.providers = true) :
    (setActiveCurrencyProvider k st).1 =
      { reg := { providers := st.reg.providers, active := some k }, store := some k } := by
  simp [setActiveCurrencyProvider, hk, setActiveProvider]

/-- With at most one provider, a failed initial attempt is wrapped and
rethrown without any fallback. -/
theorem facadeCall_no_fallback (message : String) (st : FacadeState)
    (outcomes : String → Except JsError ExchangeRateResult) (e0 : JsError)
    (h1 : facadeAttempt st none outcomes = .error e0)
    (hlen : (keysA st.reg.providers).length ≤ 1) :
    facadeCall message st none outcomes =
      (.error (currencyServiceUnavailable message e0), st) := by
  simp only [facadeCall, h1]
  rw [if_neg (fun h => absurd h.2 (by omega))]

/-- With more than one provider but every alternate failing, the facade
throws the summary error wrapping the error of the initial attempt. -/
theorem facadeCall_all_alternates_fail (message : String) (st : FacadeState)
    (outcomes : String → Except JsError ExchangeRateResult) (e0 : JsError)
    (activeInst : ProvInstance)
    (h1 : facadeAttempt st none outcomes = .error e0)
    (_hlen : 1 < (keysA st.reg.providers).length)
    (hact : getActiveProvider st.reg = .ok activeInst)
    (htry : tryAlternates outcomes ((keysA st.reg.providers).filter
      (fun p => p ≠ activeInst.providerField)) = none) :
    facadeCall message st none outcomes =
      (.error (currencyServiceUnavailable message e0), st) := by
  simp only [facadeCall, h1, hact, htry]
  split <;> rfl

/-- With more than one provider, the first succeeding alternate supplies the
result and is activated and persisted. -/
theorem facadeCall_fallback_success (message : String) (st : FacadeState)
    (outcomes : String → Except JsError ExchangeRateResult) (e0 : JsError)
    (activeInst : ProvInstance) (pre rest : List String) (k : String)
    (r : ExchangeRateResult)
    (h1 : facadeAttempt st none outcomes = .error e0)
    (hlen : 1 < (keysA st.reg.providers).length)
    (hact : getActiveProvider st.reg = .ok activeInst)
    (hfilter : (keysA st.reg.providers).filter
      (fun p => p ≠ activeInst.providerField) = pre ++ k :: rest)
    (hpre : ∀ p ∈ pre, ∃ ep, outcomes p = .error ep)
    (hk : outcomes k = .ok r) :
    facadeCall message st none outcomes =
      (.ok r, { reg := { providers := st.reg.providers, active := some k }
                store := some k }) := by
  have htry := tryAlternates_first_success outcomes k r rest pre hpre hk
  have hmem : k ∈ keysA st.reg.providers := by
    have : k ∈ (keysA st.reg.providers).filter (fun p => p ≠ activeInst.providerField) := by
      rw [hfilter]
      simp
    exact List.mem_of_mem_filter this
  have hhas := hasA_of_mem_keysA k st.reg.providers hmem
  simp only [facadeCall, h1, hact, hfilter, htry,
    setActiveCurrencyProvider_initialized k st hhas]
  rw [if_pos (And.intro trivial hlen)]

/-! ## Claim theorems for the facade -/

/-- C2 (amended): when the facade is called without an override and the
initial (active-provider) attempt fails with `e0`, and every alternate
provider also fails (or no fallback is possible), the caller receives one
summary "currency service unavailable" error whose wrapped underlying cause
is `e0` — the error of the first underlying failure, from the initially
attempted provider — and the individual alternate-provider failures are not
surfaced. -/
theorem claim_c2_summary_wraps_first_failure (message : String) (st : FacadeState)
    (outcomes : String → Except JsError ExchangeRateResult) (e0 : JsError)
    (h1 : facadeAttempt st none outcomes = .error e0) :
    ((keysA st.reg.providers).length ≤ 1 →
        facadeCall message st none outcomes =
          (.error (currencyServiceUnavailable message e0), st)) ∧
    (∀ activeInst, 1 < (keysA st.reg.providers).length →
        getActiveProvider st.reg = .ok activeInst →
        tryAlternates outcomes ((keysA st.reg.providers).filter
          (fun p => p ≠ activeInst.providerField)) = none →
        facadeCall message st none outcomes =
          (.error (currencyServiceUnavailable message e0), st)) := by
  constructor
  · intro hlen
    exact facadeCall_no_fallback message st outcomes e0 h1 hlen
  · intro activeInst hlen hact htry
    exact facadeCall_all_alternates_fail message st outcomes e0 activeInst h1 hlen hact htry

/-- C2 witness: at a concrete two-provider state where both providers fail,
the facade returns the summary error wrapping the active provider's
failure. -/
theorem claim_c2_witness :
    facadeCall "Unable to fetch exchange rates from any provider"
      { reg := { providers := [("exchangerate-api", { providerField := "exchangerate-api" }),
                               ("fixer", { providerField := "exchangerate-api" })]
                 active := some "exchangerate-api" }
        store := none }
      none
      (fun p => if p = "exchangerate-api" then .error (.stdErr "Error" "eA")
                else .error (.stdErr "Error" "eB")) =
      (.error (currencyServiceUnavailable "Unable to fetch exchange rates from any provider"
          (.stdErr "Error" "eA")),
       { reg := { providers := [("exchangerate-api", { providerField := "exchangerate-api" }),
                                ("fixer", { providerField := "exchangerate-api" })]
                  active := some "exchangerate-api" }
         store := none }) := by
  exact (claim_c2_summary_wraps_first_failure
    "Unable to fetch exchange rates from any provider"
    { reg := { providers := [("exchangerate-api", { providerField := "exchangerate-api" }),
                             ("fixer", { providerField := "exchangerate-api" })]
               active := some "exchangerate-api" }
      store := none }
    (fun p => if p = "exchangerate-api" then .error (.stdErr "Error" "eA")
              else .error (.stdErr "Error" "eB"))
    (.stdErr "Error" "eA") rfl).2
    { providerField := "exchangerate-api" } (by decide) rfl rfl

/-- C2 counterexample: with two providers failing with distinct errors, the
summary error wraps the active provider's error `eA` (the first failure),
not the error `eB` of the final provider attempted, refuting
"the wrapped underlying cause is the last underlying provider failure". -/
theorem claim_c2_counterexample :
    getLatestExchangeRates
      { reg := { providers := [("exchangerate-api", { providerField := "exchangerate-api" }),
                               ("fixer", { providerField := "exchangerate-api" })]
                 active := some "exchangerate-api" }
        store := none }
      none
      (fun p => if p = "exchangerate-api" then .error (.stdErr "Error" "eA")
                else .error (.stdErr "Error" "eB")) =
      (.error (.appErr ErrorType.network "Unable to fetch exchange rates from any provider"
          (some "currency_service_unavailable") (some (.stdErr "Error" "eA"))),
       { reg := { providers := [("exchangerate-api", { providerField := "exchangerate-api" }),
                                ("fixer", { providerField := "exchangerate-api" })]
                  active := some "exchangerate-api" }
         store := none }) ∧
    (if ("fixer" : String) = "exchangerate-api" then Except.error (JsError.stdErr "Error" "eA")
     else Except.error (JsError.stdErr "Error" "eB")) =
      (.error (.stdErr "Error" "eB") : Except JsError ExchangeRateResult) ∧
    (JsError.stdErr "Error" "eA") ≠ (JsError.stdErr "Error" "eB") := by
  refine ⟨?_, ?_, ?_⟩
  · rfl
  · rfl
  · decide

/-- C6 (amended): without an override, when the active provider fails,
failover runs exactly when more than one provider is initialized; it tries,
in registry insertion order, the identities other than the active
instance's `provider` field, and the first to succeed supplies the result,
becomes the registry's active identity, and is written to the preference
store; the facade's `getActiveCurrencyProvider` then reports the `provider`
field of the instance registered under that identity (which equals the
identity only when the instance carries it; the factory constructs every
instance with field `EXCHANGE_RATE_API`). -/
theorem claim_c6_sticky_fallback (st : FacadeState)
    (outcomes : String → Except JsError ExchangeRateResult) (e0 : JsError)
    (a : String) (activeInst : ProvInstance)
    (hact : st.reg.active = some a)
    (hlk : lookupA a st.reg.providers = some activeInst)
    (he0 : outcomes a = .error e0) :
    ((keysA st.reg.providers).length ≤ 1 →
        getLatestExchangeRates st none outcomes =
          (.error (currencyServiceUnavailable
            "Unable to fetch exchange rates from any provider" e0), st)) ∧
    (∀ pre k rest r instB,
        1 < (keysA st.reg.providers).length →
        (keysA st.reg.providers).filter (fun p => p ≠ activeInst.providerField) =
          pre ++ k :: rest →
        (∀ p ∈ pre, ∃ ep, outcomes p = .error ep) →
        outcomes k = .ok r →
        lookupA k st.reg.providers = some instB →
        getLatestExchangeRates st none outcomes =
          (.ok r, { reg := { providers := st.reg.providers, active := some k }
                    store := some k }) ∧
        getActiveCurrencyProvider
          { reg := { providers := st.reg.providers, active := some k }
            store := some k } = instB.providerField) := by
  have h1 : facadeAttempt st none outcomes = .error e0 := by
    simp [facadeAttempt, getActiveProvider, hact, hlk, he0]
  have hgap : getActiveProvider st.reg = .ok activeInst := by
    simp [getActiveProvider, hact, hlk]
  constructor
  · intro hlen
    exact facadeCall_no_fallback _ st outcomes e0 h1 hlen
  · intro pre k rest r instB hlen hfilter hpre hk hlkB
    refine ⟨facadeCall_fallback_success _ st outcomes e0 activeInst pre rest k r
      h1 hlen hgap hfilter hpre hk, ?_⟩
    simp [getActiveCurrencyProvider, getActiveProvider, hlkB]

/-- C6 witness: a concrete fallback from the failing active provider to a
succeeding second provider returns the second provider's result, activates
it, and persists it. -/
theorem claim_c6_witness :
    getLatestExchangeRates
      { reg := { providers := [("exchangerate-api", { providerField := "exchangerate-api" }),
                               ("fixer", { providerField := "exchangerate-api" })]
                 active := some "exchangerate-api" }
        store := none }
      none
      (fun p => if p = "fixer"
                then .ok { base := "EUR", date := "d", rates := [("USD", 2)]
                           provider := EXCHANGE_RATE_API, timestamp := 0 }
                else .error (.stdErr "Error" "down")) =
      (.ok { base := "EUR", date := "d", rates := [("USD", 2)]
             provider := EXCHANGE_RATE_API, timestamp := 0 },
       { reg := { providers := [("exchangerate-api", { providerField := "exchangerate-api" }),
                                ("fixer", { providerField := "exchangerate-api" })]
                  active := some "fixer" }
         store := some "fixer" }) := by
  exact ((claim_c6_sticky_fallback
    { reg := { providers := [("exchangerate-api", { providerField := "exchangerate-api" }),
                             ("fixer", { providerField := "exchangerate-api" })]
               active := some "exchangerate-api" }
      store := none }
    (fun p => if p = "fixer"
              then .ok { base := "EUR", date := "d", rates := [("USD", 2)]
                         provider := EXCHANGE_RATE_API, timestamp := 0 }
              else .error (.stdErr "Error" "down"))
    (.stdErr "Error" "down") "exchangerate-api" { providerField := "exchangerate-api" }
    rfl rfl rfl).2
    [] "fixer" [] _ { providerField := "exchangerate-api" }
    (by decide) rfl (by simp) rfl rfl).1

/-- C6 counterexample: in a factory-built two-provider state, after a
successful fallback from `exchangerate-api` to the identity `fixer`, the
facade's `getActiveCurrencyProvider` reports `exchangerate-api` — the
`provider` field of the instance the factory registered under `fixer` —
and not `fixer`, refuting "getActiveProvider() returns B". -/
theorem claim_c6_counterexample :
    getLatestExchangeRates
      { reg := initializeProvider "fixer" (initializeProvider "exchangerate-api" initialRegistry)
        store := none }
      none
      (fun p => if p = "fixer"
                then .ok { base := "EUR", date := "d", rates := [("USD", 2)]
                           provider := EXCHANGE_RATE_API, timestamp := 0 }
                else .error (.stdErr "Error" "down")) =
      (.ok { base := "EUR", date := "d", rates := [("USD", 2)]
             provider := EXCHANGE_RATE_API, timestamp := 0 },
       { reg := { providers := [("exchangerate-api", { providerField := "exchangerate-api" }),
                                ("fixer", { providerField := "exchangerate-api" })]
                  active := some "fixer" }
         store := some "fixer" }) ∧
    getActiveCurrencyProvider
      { reg := { providers := [("exchangerate-api", { providerField := "exchangerate-api" }),
                               ("fixer", { providerField := "exchangerate-api" })]
                 active := some "fixer" }
        store := some "fixer" } = "exchangerate-api" ∧
    ("exchangerate-api" : String) ≠ "fixer" := by
  refine ⟨?_, ?_, ?_⟩
  · rfl
  · rfl
  · decide

/-- C8: in every registry state reachable by any sequence of
`initializeProvider`, `setActiveProvider`, `autoSelectProvider` and the
read-only operations from the freshly constructed registry, the active
identity, if set, is a key present in the providers map. -/
theorem claim_c8_registry_invariant (ops : List RegOp) :
    RegInv (ops.foldl stepReg initialRegistry) := by
  have key : ∀ (l : List RegOp) (st : RegistryState), RegInv st →
      RegInv (l.foldl stepReg st) := by
    intro l
    induction l with
    | nil => intro st h; simpa using h
    | cons op rest ih =>
        intro st h
        simpa using ih (stepReg st op) (regInv_step st op h)
  refine key ops initialRegistry ?_
  intro x hx
  simp [initialRegistry] at hx

/-- C8 witness: the invariant evaluated on the concrete state reached by
initializing and activating one provider. -/
theorem claim_c8_witness :
    hasA "exchangerate-api"
      (([RegOp.initP "exchangerate-api", RegOp.setActive "exchangerate-api"].foldl
        stepReg initialRegistry).providers) = true := by
  have h := claim_c8_registry_invariant
    [RegOp.initP "exchangerate-api", RegOp.setActive "exchangerate-api"]
  exact h "exchangerate-api" rfl

/-- C10: the facade's `getActiveCurrencyProvider` is total: when the
registry's `getActiveProvider` would throw (no active identity, or the
active identity unbound), it returns the default identity
`EXCHANGE_RATE_API`; when an active instance exists it returns that
instance's `provider` identity. -/
theorem claim_c10_getActive_total (st : FacadeState) :
    (st.reg.active = none → getActiveCurrencyProvider st = EXCHANGE_RATE_API) ∧
    (∀ a, st.reg.active = some a → lookupA a st.reg.providers = none →
        getActiveCurrencyProvider st = EXCHANGE_RATE_API) ∧
    (∀ a inst, st.reg.active = some a → lookupA a st.reg.providers = some inst →
        getActiveCurrencyProvider st = inst.providerField) := by
  refine ⟨?_, ?_, ?_⟩
  · intro h
    simp [getActiveCurrencyProvider, getActiveProvider, h]
  · intro a ha hlk
    simp [getActiveCurrencyProvider, getActiveProvider, ha, hlk]
  · intro a inst ha hlk
    simp [getActiveCurrencyProvider, getActiveProvider, ha, hlk]

/-- C10 witness: on the empty registry the facade reports the default
identity, and with an active instance it reports that instance's
identity. -/
theorem claim_c10_witness :
    getActiveCurrencyProvider { reg := initialRegistry, store := none } =
      EXCHANGE_RATE_API ∧
    getActiveCurrencyProvider
      { reg := { providers := [("exchangerate-api", { providerField := "exchangerate-api" })]
                 active := some "exchangerate-api" }
        store := none } = "exchangerate-api" := by
  constructor
  · exact (claim_c10_getActive_total { reg := initialRegistry, store := none }).1 rfl
  · exact (claim_c10_getActive_total
      { reg := { providers := [("exchangerate-api", { providerField := "exchangerate-api" })]
                 active := some "exchangerate-api" }
        store := none }).2.2 "exchangerate-api" { providerField := "exchangerate-api" } rfl rfl

end SubTracker
